import Mathlib

set_option linter.unusedVariables false

/-!
Shallow embedding of the client module `frontend/src/requests.js` of the
urban-online-workflow repository, and proofs settling the specification
claims about it.

Modelling conventions:
* A network backend is an oracle `net : HttpRequest → FetchResult` telling,
  for each request the client could send, whether the fetch fails at the
  transport level, succeeds but with an undecodable body, or succeeds with
  a JSON body.
* Each client operation is embedded as a pure function returning the list
  of HTTP requests it transmits together with the JavaScript value its
  promise resolves to.  The catch-and-log branches of the source resolve
  with the JavaScript value `undefined`.
* `window.crypto.getRandomValues(new Uint8Array(1))[0]` is one draw from a
  process-wide byte stream: operations that draw randomness take the
  stream `rng : Nat → Nat` and the index `k` of the next unconsumed draw;
  a drawn byte is `rng k % 256`.
-/

/-- JSON values as used by this client module. -/
inductive Json where
  | str : String → Json
  | num : Nat → Json
  | obj : List (String × Json) → Json

/-- An HTTP request as assembled by `window.fetch` calls in requests.js:
method, URL, and optional JSON body. -/
structure HttpRequest where
  method : String
  url : String
  body : Option Json

/-- Outcome of one `window.fetch` round trip, as supplied by the backend
oracle: transport-level failure, a response whose `json()` rejects, or a
response with a decoded JSON body. -/
inductive FetchResult where
  | netError
  | undecodable
  | ok : Json → FetchResult

/-- JavaScript values observed as results of the client operations:
`undefined`, a JSON value, or a pending Promise object used as a plain
value without being awaited. -/
inductive JsValue where
  | undefined
  | ofJson : Json → JsValue
  | pendingPromise

/-- Field lookup in a JSON object. -/
def Json.getField (j : Json) (k : String) : Option Json :=
  match j with
  | .obj fields => fields.lookup k
  | _ => none

/-- Key set of a JSON object (the LULC table categories), in field order. -/
def Json.keys : Json → List String
  | .obj fields => fields.map Prod.fst
  | _ => []

/-- String values of a JSON object, in field order: the category names in
the value set of the LULC code table. -/
def Json.strValues : Json → List String
  | .obj fields => fields.filterMap (fun f =>
      match f.2 with
      | .str s => some s
      | _ => none)
  | _ => []

/-- JavaScript property access `v.k`: a field of an object, `undefined` on
a missing field and on every non-object value.  In particular a pending
Promise object has no data fields, so reading a property from it yields
`undefined`. -/
def JsValue.getProp (v : JsValue) (k : String) : JsValue :=
  match v with
  | .ofJson j =>
      match j.getField k with
      | some w => .ofJson w
      | none => .undefined
  | _ => .undefined

/-- The module-scoped base URL of requests.js. -/
def apiBaseURL : String := "http://127.0.0.1:8000"

/-- The shared fetch pattern of requests.js:
`window.fetch(...).then((response) => response.json()).catch((error) => console.log(error))`.
A transport failure or an undecodable body lands in the catch branch,
whose `console.log` call makes the promise resolve with `undefined`. -/
def fetchJson (net : HttpRequest → FetchResult) (req : HttpRequest) : JsValue :=
  match net req with
  | .netError => .undefined
  | .undecodable => .undefined
  | .ok body => .ofJson body

/-- Request sent by `createSession`: POST `/users`. -/
def usersRequest : HttpRequest :=
  ⟨"post", apiBaseURL ++ "/users", none⟩

/-- Request sent by `getAllScenarios`: GET `/scenarios/:sessionID`. -/
def scenariosRequest (sessionID : String) : HttpRequest :=
  ⟨"get", apiBaseURL ++ "/scenarios/" ++ sessionID, none⟩

/-- Request sent by `getScenario`: GET `/scenario/:id`. -/
def scenarioGetRequest (id : String) : HttpRequest :=
  ⟨"get", apiBaseURL ++ "/scenario/" ++ id, none⟩

/-- Request sent by `makeScenario`: POST `/scenario/:sessionID` with a JSON
body carrying name and description. -/
def scenarioPostRequest (sessionID name description : String) : HttpRequest :=
  ⟨"post", apiBaseURL ++ "/scenario/" ++ sessionID,
    some (Json.obj [("name", Json.str name), ("description", Json.str description)])⟩

/-- Request sent by `getJobStatus`: GET `/job/:jobID`. -/
def jobRequest (jobID : String) : HttpRequest :=
  ⟨"get", apiBaseURL ++ "/job/" ++ jobID, none⟩

/-- Request sent by `getPatterns`: GET `/pattern/:sessionID`. -/
def patternsRequest (sessionID : String) : HttpRequest :=
  ⟨"get", apiBaseURL ++ "/pattern/" ++ sessionID, none⟩

/-- One formatted coordinate pair of the WKT string: `x y`. -/
def coordPair (q : Int × Int) : String :=
  toString q.1 ++ " " ++ toString q.2

/-- The `targetWKT` template literal built inside `doWallpaper`:
`POLYGON((x1 y1, x2 y2, ...))` over exactly the coordinate pairs given by
the caller, joined by a comma and a space. -/
def targetWKT (targetCoords : List (Int × Int)) : String :=
  "POLYGON((" ++ String.intercalate ", " (targetCoords.map coordPair) ++ "))"

/-- The closed-ring polygon encoder as the specification describes it:
`POLYGON((x1 y1, x2 y2, ..., x1 y1))` with the first coordinate pair
repeated as the last, ring closure enforced by the encoder.  Stated from
the words of the spec, to be compared with `targetWKT` from the source. -/
def specClosedRingWKT : List (Int × Int) → String
  | [] => "POLYGON(())"
  | c :: rest =>
      "POLYGON((" ++ String.intercalate ", " (((c :: rest) ++ [c]).map coordPair) ++ "))"

/-- Request sent by `doWallpaper`: POST `/wallpaper` with scenario id,
target parcel WKT, and pattern id in the JSON body. -/
def wallpaperRequest (targetCoords : List (Int × Int)) (patternID scenarioID : String) :
    HttpRequest :=
  ⟨"post", apiBaseURL ++ "/wallpaper",
    some (Json.obj [("scenario_id", Json.str scenarioID),
                    ("target_parcel_wkt", Json.str (targetWKT targetCoords)),
                    ("pattern_id", Json.str patternID)])⟩

/-- `createSession` from requests.js: POST `/users`, decode the JSON body,
log-and-swallow any error. -/
def createSession (net : HttpRequest → FetchResult) : List HttpRequest × JsValue :=
  ([usersRequest], fetchJson net usersRequest)

/-- `getAllScenarios` from requests.js: GET `/scenarios/:sessionID`. -/
def getAllScenarios (net : HttpRequest → FetchResult) (sessionID : String) :
    List HttpRequest × JsValue :=
  ([scenariosRequest sessionID], fetchJson net (scenariosRequest sessionID))

/-- `getScenario` from requests.js: GET `/scenario/:id`. -/
def getScenario (net : HttpRequest → FetchResult) (id : String) :
    List HttpRequest × JsValue :=
  ([scenarioGetRequest id], fetchJson net (scenarioGetRequest id))

/-- `makeScenario` from requests.js: POST `/scenario/:sessionID`, then read
`json.scenario_id` from the decoded body. -/
def makeScenario (net : HttpRequest → FetchResult) (sessionID name description : String) :
    List HttpRequest × JsValue :=
  ([scenarioPostRequest sessionID name description],
    JsValue.getProp (fetchJson net (scenarioPostRequest sessionID name description))
      "scenario_id")

/-- `getJobStatus` from requests.js.  Its then-callback is
`(response) => response.json().status`: `response.json()` is a Promise
object, and `.status` is read from that Promise without awaiting it, so
whenever a response arrives the promise resolves with the `status`
property of a pending Promise. -/
def getJobStatus (net : HttpRequest → FetchResult) (jobID : String) :
    List HttpRequest × JsValue :=
  ([jobRequest jobID],
    match net (jobRequest jobID) with
    | .netError => .undefined
    | .undecodable => JsValue.getProp .pendingPromise "status"
    | .ok _ => JsValue.getProp .pendingPromise "status")

/-- `doWallpaper` from requests.js: build `targetWKT` from the coordinate
list, POST `/wallpaper`, decode the JSON body, log-and-swallow any error.
There is no client-side validation of the geometry or the ids. -/
def doWallpaper (net : HttpRequest → FetchResult) (targetCoords : List (Int × Int))
    (patternID scenarioID : String) : List HttpRequest × JsValue :=
  ([wallpaperRequest targetCoords patternID scenarioID],
    fetchJson net (wallpaperRequest targetCoords patternID scenarioID))

/-- `getPatterns` from requests.js: GET `/pattern/:sessionID`. -/
def getPatterns (net : HttpRequest → FetchResult) (sessionID : String) :
    List HttpRequest × JsValue :=
  ([patternsRequest sessionID], fetchJson net (patternsRequest sessionID))

/-- One draw of `window.crypto.getRandomValues(new Uint8Array(1))[0]`:
byte `k` of the process random stream. -/
def randomByte (rng : Nat → Nat) (k : Nat) : Nat :=
  rng k % 256

/-- `getWallpaperResults` from requests.js: resolves with a mock LULC
table of five fresh random bytes; the job id argument is never read and no
backend call is made. -/
def getWallpaperResults (rng : Nat → Nat) (k : Nat) (jobID : String) : Json :=
  Json.obj [("forest", Json.num (randomByte rng k)),
            ("housing", Json.num (randomByte rng (k + 1))),
            ("grass", Json.num (randomByte rng (k + 2))),
            ("commercial", Json.num (randomByte rng (k + 3))),
            ("orchard", Json.num (randomByte rng (k + 4)))]

/-- `getLulcTableForParcel` from requests.js: resolves with a mock
baseline LULC table of five fresh random bytes; the geometry argument is
never read. -/
def getLulcTableForParcel (rng : Nat → Nat) (k : Nat) (geom : String) : Json :=
  Json.obj [("forest", Json.num (randomByte rng k)),
            ("grass", Json.num (randomByte rng (k + 1))),
            ("housing", Json.num (randomByte rng (k + 2))),
            ("commercial", Json.num (randomByte rng (k + 3))),
            ("orchard", Json.num (randomByte rng (k + 4)))]

/-- `getLulcCodes` from requests.js: a constant lookup table.  Like every
operation in this embedding it receives the ambient random stream and draw
counter describing the moment of the call; it reads neither, which is what
makes repeated calls agree. -/
def getLulcCodes (rng : Nat → Nat) (k : Nat) : Json :=
  Json.obj [("1", Json.str "forest"),
            ("2", Json.str "grass"),
            ("3", Json.str "housing"),
            ("4", Json.str "commercial"),
            ("5", Json.str "orchard")]

/-- `createPattern` from requests.js: resolves with a single fresh random
byte as the pattern id; the geometry and name are only logged. -/
def createPattern (rng : Nat → Nat) (k : Nat) (geom : String) (name : String) : Nat :=
  randomByte rng k

/-- Claim C1, counterexample: on the sample geometry from the spec, the
WKT string `doWallpaper` emits does not repeat the first coordinate pair
as the last, so it differs from the closed-ring form the claim states. -/
theorem targetWKT_not_closed_ring :
    targetWKT [(0, 0), (0, 1), (1, 1), (1, 0)] ≠
      specClosedRingWKT [(0, 0), (0, 1), (1, 1), (1, 0)] := by
  decide

/-- Claim C1 (amended): the encoder emits the coordinate pairs of the
caller verbatim, so the emitted `target_parcel_wkt` has the closed-ring
form exactly when the caller has already appended the first point at the
end of the geometry. -/
theorem targetWKT_closed_iff_caller_closes (p : Int × Int) (coords : List (Int × Int)) :
    targetWKT (p :: (coords ++ [p])) = specClosedRingWKT (p :: coords) := rfl

/-- Claim C2, counterexample: on a 2-point geometry, `doWallpaper` does
not fail before the network call; it transmits exactly one request to the
backend. -/
theorem doWallpaper_two_point_sends_request :
    (doWallpaper (fun _ => FetchResult.netError) [(0, 0), (1, 1)] "P1" "S1").1 =
        [wallpaperRequest [(0, 0), (1, 1)] "P1" "S1"] ∧
      (doWallpaper (fun _ => FetchResult.netError) [(0, 0), (1, 1)] "P1" "S1").1 ≠ [] :=
  ⟨rfl, by simp [doWallpaper]⟩

/-- Claim C2 (amended): `doWallpaper` performs no client-side validation:
for every geometry (including geometries with fewer than 3 distinct
points), pattern id and scenario id, it transmits exactly one POST
`/wallpaper` request carrying the WKT-encoded geometry; no
`InvalidArgument` failure path exists. -/
theorem doWallpaper_always_sends_request (net : HttpRequest → FetchResult)
    (targetCoords : List (Int × Int)) (patternID scenarioID : String) :
    (doWallpaper net targetCoords patternID scenarioID).1 =
      [⟨"post", apiBaseURL ++ "/wallpaper",
        some (Json.obj [("scenario_id", Json.str scenarioID),
                        ("target_parcel_wkt", Json.str (targetWKT targetCoords)),
                        ("pattern_id", Json.str patternID)])⟩] := rfl

/-- Claim C3, counterexample: for a job id that never succeeded (none was
ever submitted), `getWallpaperResults` does not fail: it returns a full
mock LULC table with all five category keys. -/
theorem getWallpaperResults_unknown_job_returns_table :
    (getWallpaperResults (fun _ => 0) 0 "neverSucceededJob").keys =
      ["forest", "housing", "grass", "commercial", "orchard"] := rfl

/-- Claim C3 (amended): `getWallpaperResults` never fails and never checks
job status: for every job id it returns a mock LULC table whose keys are
exactly the five category names, with random byte values. -/
theorem getWallpaperResults_never_fails (rng : Nat → Nat) (k : Nat) (jobID : String) :
    (getWallpaperResults rng k jobID).keys =
      ["forest", "housing", "grass", "commercial", "orchard"] := rfl

/-- Claim C4: when the backend responds to GET `/job/:jobID` with the JSON
body containing `status = succeeded`, `getJobStatus` still resolves with
`undefined` rather than the status string: the then-callback reads
`.status` from the un-awaited Promise returned by `response.json()`. -/
theorem getJobStatus_drops_response_status :
    (getJobStatus (fun _ => FetchResult.ok (Json.obj [("status", Json.str "succeeded")]))
          "J1").2 = JsValue.undefined ∧
      JsValue.undefined ≠ JsValue.ofJson (Json.str "succeeded") :=
  ⟨rfl, fun h => JsValue.noConfusion h⟩

/-- Claim C5, counterexample: `createSession` on a transport failure
resolves with `undefined` (the catch branch only logs), so the caller
cannot distinguish the error kind from a legitimate result. -/
theorem createSession_netError_returns_undefined :
    (createSession (fun _ => FetchResult.netError)).2 = JsValue.undefined := rfl

/-- Claim C5 (amended): every client operation swallows both failure
kinds: when each fetch either fails at the transport level or yields an
undecodable response body, each of the seven operations resolves with
`undefined` instead of a distinguishable error value. -/
theorem clientOps_swallow_fetch_failures (net : HttpRequest → FetchResult)
    (hfail : ∀ r, net r = FetchResult.netError ∨ net r = FetchResult.undecodable)
    (sessionID id jobID name description patternID scenarioID : String)
    (targetCoords : List (Int × Int)) :
    (createSession net).2 = JsValue.undefined ∧
      (getAllScenarios net sessionID).2 = JsValue.undefined ∧
      (getScenario net id).2 = JsValue.undefined ∧
      (makeScenario net sessionID name description).2 = JsValue.undefined ∧
      (getJobStatus net jobID).2 = JsValue.undefined ∧
      (doWallpaper net targetCoords patternID scenarioID).2 = JsValue.undefined ∧
      (getPatterns net sessionID).2 = JsValue.undefined := by
  have hfj : ∀ req, fetchJson net req = JsValue.undefined := by
    intro req
    rcases hfail req with h | h <;> simp [fetchJson, h]
  refine ⟨by simp [createSession, hfj], by simp [getAllScenarios, hfj],
    by simp [getScenario, hfj], by simp [makeScenario, hfj, JsValue.getProp],
    ?_, by simp [doWallpaper, hfj], by simp [getPatterns, hfj]⟩
  rcases hfail (jobRequest jobID) with h | h <;>
    simp [getJobStatus, h, JsValue.getProp]

/-- Witness for the amended claim C5: a concrete network on which the GET
operations receive undecodable response bodies and the POST operations
fail at the transport level, at concrete arguments. -/
theorem clientOps_swallow_fetch_failures_witness :
    (createSession
        (fun r => if r.method = "get" then FetchResult.undecodable
          else FetchResult.netError)).2 = JsValue.undefined ∧
      (getAllScenarios
        (fun r => if r.method = "get" then FetchResult.undecodable
          else FetchResult.netError) "S1").2 = JsValue.undefined ∧
      (getScenario
        (fun r => if r.method = "get" then FetchResult.undecodable
          else FetchResult.netError) "I1").2 = JsValue.undefined ∧
      (makeScenario
        (fun r => if r.method = "get" then FetchResult.undecodable
          else FetchResult.netError) "S1" "plan" "desc").2 = JsValue.undefined ∧
      (getJobStatus
        (fun r => if r.method = "get" then FetchResult.undecodable
          else FetchResult.netError) "J1").2 = JsValue.undefined ∧
      (doWallpaper
        (fun r => if r.method = "get" then FetchResult.undecodable
          else FetchResult.netError) [(0, 0), (1, 1)] "P1" "S1").2 = JsValue.undefined ∧
      (getPatterns
        (fun r => if r.method = "get" then FetchResult.undecodable
          else FetchResult.netError) "S1").2 = JsValue.undefined :=
  clientOps_swallow_fetch_failures
    (fun r => if r.method = "get" then FetchResult.undecodable
      else FetchResult.netError)
    (fun r => by by_cases h : r.method = "get" <;> simp [h])
    "S1" "I1" "J1" "plan" "desc" "P1" "S1" [(0, 0), (1, 1)]

/-- Claim C6, counterexample: when the random stream yields the byte 7
twice in a row, two successive `createPattern` calls return the same
pattern id. -/
theorem createPattern_repeated_byte_collides :
    createPattern (fun _ => 7) 0 "geom" "park" =
      createPattern (fun _ => 7) 1 "geom" "park" := rfl

/-- Claim C6 (amended): the ids of two `createPattern` calls are distinct
exactly when the two underlying random bytes differ modulo 256;
distinctness is therefore not guaranteed. -/
theorem createPattern_distinct_iff_bytes_differ (rng : Nat → Nat) (i j : Nat)
    (g1 n1 g2 n2 : String) :
    createPattern rng i g1 n1 ≠ createPattern rng j g2 n2 ↔
      rng i % 256 ≠ rng j % 256 :=
  Iff.rfl

/-- Claim C7: the key set of every LULC table returned by
`getWallpaperResults` or `getLulcTableForParcel` is a subset of the
category names in the value set of `getLulcCodes`. -/
theorem lulcTable_keys_subset_of_codes (rng : Nat → Nat) (k : Nat) (jobID : String)
    (rng2 : Nat → Nat) (k2 : Nat) (geom : String) :
    (getWallpaperResults rng k jobID).keys ⊆ (getLulcCodes rng k).strValues ∧
      (getLulcTableForParcel rng2 k2 geom).keys ⊆ (getLulcCodes rng2 k2).strValues := by
  constructor <;> intro a ha <;>
    simp [getWallpaperResults, getLulcTableForParcel, Json.keys] at ha <;>
    rcases ha with h | h | h | h | h <;> subst h <;>
      simp [getLulcCodes, Json.strValues]

/-- Witness for claim C7 at a concrete stream, job id and geometry. -/
theorem lulcTable_keys_subset_of_codes_witness :
    "forest" ∈ (getLulcCodes (fun _ => 0) 0).strValues ∧
      "grass" ∈ (getLulcCodes (fun _ => 0) 0).strValues :=
  ⟨(lulcTable_keys_subset_of_codes (fun _ => 0) 0 "J1" (fun _ => 0) 0 "G").1 (by decide),
   (lulcTable_keys_subset_of_codes (fun _ => 0) 0 "J1" (fun _ => 0) 0 "G").2 (by decide)⟩

/-- Claim C8: `getLulcCodes` is idempotent: any two calls within a process
lifetime return the same mapping, namely 1 to forest, 2 to grass, 3 to
housing, 4 to commercial and 5 to orchard. -/
theorem getLulcCodes_idempotent_constant (rng : Nat → Nat) (k : Nat)
    (rng2 : Nat → Nat) (k2 : Nat) :
    getLulcCodes rng k = getLulcCodes rng2 k2 ∧
      getLulcCodes rng k =
        Json.obj [("1", Json.str "forest"), ("2", Json.str "grass"),
                  ("3", Json.str "housing"), ("4", Json.str "commercial"),
                  ("5", Json.str "orchard")] :=
  ⟨rfl, rfl⟩

/-- Claim C9: every pattern id returned by `createPattern` is a single
random byte, at most 255, so among any 257 calls at least two return the
same id. -/
theorem createPattern_byte_range_and_collision (rng : Nat → Nat) (g n : String) :
    (∀ k, createPattern rng k g n ≤ 255) ∧
      ∃ i j : Fin 257, i ≠ j ∧
        createPattern rng i.val g n = createPattern rng j.val g n := by
  have hrange : ∀ k, createPattern rng k g n < 256 := fun k => Nat.mod_lt _ (by decide)
  refine ⟨fun k => Nat.lt_succ_iff.mp (hrange k), ?_⟩
  obtain ⟨i, j, hij, heq⟩ :=
    Fintype.exists_ne_map_eq_of_card_lt
      (fun i : Fin 257 => (⟨createPattern rng i.val g n, hrange i.val⟩ : Fin 256))
      (by rw [Fintype.card_fin, Fintype.card_fin]; exact Nat.lt_succ_self 256)
  exact ⟨i, j, hij, congrArg Fin.val heq⟩

/-- Claim C10: `getWallpaperResults` never reads its job id argument: with
the same random stream and draw position, any two job ids yield identical
LULC tables. -/
theorem getWallpaperResults_ignores_jobID (rng : Nat → Nat) (k : Nat)
    (jobID1 jobID2 : String) :
    getWallpaperResults rng k jobID1 = getWallpaperResults rng k jobID2 := rfl
